import Mathlib

set_option linter.unusedVariables false
set_option maxRecDepth 8192

/-!
Verification development for the SpriteCleaner repository.

The file shallowly embeds the two scripts of the repository,
`remove_background.py` and `comparison/compare_images.py`, as pure Lean
functions over explicit filesystem/oracle states, and proves the
specification's claims about them.
-/

namespace SpriteCleaner

/-- ASCII lowercasing of one character; models Python `str.lower` on the
ASCII strings (path suffixes) the scripts compare. -/
def asciiLowerChar (c : Char) : Char :=
  if 'A' ≤ c ∧ c ≤ 'Z' then Char.ofNat (c.toNat + 32) else c

/-- Models Python `str.lower` (ASCII range). -/
def asciiLower (s : String) : String := ⟨s.data.map asciiLowerChar⟩

/-- Split a character list at '/' boundaries (accumulator holds the
current segment reversed). -/
def segmentsAux : List Char → List Char → List (List Char)
  | [], cur => [cur.reverse]
  | c :: rest, cur =>
    if c = '/' then cur.reverse :: segmentsAux rest []
    else segmentsAux rest (c :: cur)

/-- The final path component, modelling `pathlib.PurePath.name`: the last
nonempty segment of the path. -/
def lastComponent (p : String) : String :=
  ⟨(((segmentsAux p.data []).filter (fun s => s ≠ [])).getLast?).getD []⟩

/-- Index of the last '.' in a character list, if any. -/
def rfindDotAux : List Char → Nat → Option Nat
  | [], _ => none
  | c :: rest, i =>
    match rfindDotAux rest (i + 1) with
    | some j => some j
    | none => if c = '.' then some i else none

/-- Index of the last '.' in a string, modelling `str.rfind('.')` (as an Option). -/
def rfindDot (s : String) : Option Nat := rfindDotAux s.data 0

/-- Models `pathlib.PurePath.suffix`: the final extension, empty unless the
last dot of the name sits strictly inside it (`0 < i < len(name) - 1`). -/
def pathSuffix (p : String) : String :=
  let name := lastComponent p
  match rfindDot name with
  | some i => if 0 < i ∧ i < name.data.length - 1 then ⟨name.data.drop i⟩ else ""
  | none => ""

/-- Models `pathlib.PurePath.stem`: the final component without its suffix. -/
def pathStem (p : String) : String :=
  let name := lastComponent p
  match rfindDot name with
  | some i => if 0 < i ∧ i < name.data.length - 1 then ⟨name.data.take i⟩ else name
  | none => name

/-- Models `pathlib` path joining with `/`. -/
def joinPath (a b : String) : String := a ++ "/" ++ b

namespace RB

/-- What a path denotes on disk, as seen through `Path.exists` /
`Path.is_file` / `Path.is_dir` in `remove_background.py`'s `main`. -/
inductive PathKind
  | file
  | dir
  | other
  | missing
deriving DecidableEq

/-- A loaded rembg model session, created by `new_session(model)`. -/
structure Session where
  model : String
deriving DecidableEq

/-- A call made to rembg's `remove`: the bytes passed and the session
argument, if one was passed. -/
structure InferCall where
  dataBytes : List Nat
  session : Option Session
deriving DecidableEq

/-- The external rembg inference routine; inference may fail on a given
input (corrupt bytes etc.), which the scripts catch per file. -/
structure Rembg where
  infer : Option Session → List Nat → Except String (List Nat)

/-- Ambient filesystem state for the background remover: kinds of paths,
file contents (reads may fail), whether a write succeeds, and the result
of `Path.glob('*.png')` on a directory (a list of file names). -/
structure RbFs where
  kindOf : String → PathKind
  readFile : String → Except String (List Nat)
  writeOk : String → Bool
  pngList : String → List String

/-- Modelled from the spec: the external rembg library's `remove()` uses the
general-purpose default model (u2net) when no session argument is passed. -/
def rembgDefaultModel : String := "u2net"

/-- The model an inference call actually runs with: the session's model if a
session was passed, the rembg default otherwise. -/
def effectiveModel (c : InferCall) : String :=
  match c.session with
  | some s => s.model
  | none => rembgDefaultModel

/-- Outcome of `remove_background_from_file`: its return value, the
inference call it issued (if it got that far), and the files it wrote. -/
structure SingleResult where
  ok : Bool
  call : Option InferCall
  written : List String
deriving DecidableEq

/-- `remove_background_from_file` (lines 15-43): reads the input bytes,
calls `remove(input_data)` — note: no session and no model argument is
passed, although the function receives a `model` parameter — writes the
output bytes, and returns True on success, False on any caught exception. -/
def remove_background_from_file (r : Rembg) (fs : RbFs)
    (input_path output_path : String) (model : String) : SingleResult :=
  match fs.readFile input_path with
  | .error _ => ⟨false, none, []⟩
  | .ok input_data =>
    let call : InferCall := ⟨input_data, none⟩
    match r.infer none input_data with
    | .error _ => ⟨false, some call, []⟩
    | .ok _output_data =>
      if fs.writeOk output_path then ⟨true, some call, [output_path]⟩
      else ⟨false, some call, []⟩

/-- The body of the batch loop's try block (lines 78-96): read, infer with
the shared session, write to `<stem>_no_bg.png` in the output folder.
Returns success and the files written. -/
def processPng (r : Rembg) (fs : RbFs) (session : Session)
    (input_folder output_folder name : String) : Bool × List String :=
  let output_file := joinPath output_folder (pathStem name ++ "_no_bg.png")
  match fs.readFile (joinPath input_folder name) with
  | .error _ => (false, [])
  | .ok input_data =>
    match r.infer (some session) input_data with
    | .error _ => (false, [])
    | .ok _output_data =>
      if fs.writeOk output_file then (true, [output_file]) else (false, [])

/-- The batch loop (lines 78-96): running success and failure counters and
the list of written files, in file order. -/
def folderLoop (r : Rembg) (fs : RbFs) (session : Session)
    (input_folder output_folder : String) : List String → Nat × Nat × List String
  | [] => (0, 0, [])
  | name :: rest =>
    let step := processPng r fs session input_folder output_folder name
    let acc := folderLoop r fs session input_folder output_folder rest
    if step.1 then (acc.1 + 1, acc.2.1, step.2 ++ acc.2.2)
    else (acc.1, acc.2.1 + 1, step.2 ++ acc.2.2)

/-- Outcome of `remove_background_from_folder`: the printed final summary
(success count, failure count) if one is printed, the session created, and
the files written. -/
structure FolderResult where
  summary : Option (Nat × Nat)
  sessionUsed : Option Session
  written : List String
deriving DecidableEq

/-- `remove_background_from_folder` (lines 46-101): if the glob finds no
PNG files it prints a notice and returns without a summary; otherwise it
creates one session from the chosen model, processes every file with it,
and reports the two counters. -/
def remove_background_from_folder (r : Rembg) (fs : RbFs)
    (input_folder output_folder model : String) : FolderResult :=
  let png_files := fs.pngList input_folder
  if png_files = [] then ⟨none, none, []⟩
  else
    let session : Session := ⟨model⟩
    let res := folderLoop r fs session input_folder output_folder png_files
    ⟨some (res.1, res.2.1), some session, res.2.2⟩

/-- The parsed CLI arguments `--input`, `--output`, `--model`. -/
structure Args where
  input : String
  output : String
  model : String
deriving DecidableEq

/-- Observable outcome of one `main` run: process exit status, files
written, printed batch summary, the single-file inference call issued,
the resolved single-file output path, and the batch session created. -/
structure RunResult where
  exitCode : Nat
  writes : List String
  summary : Option (Nat × Nat)
  singleCall : Option InferCall
  singleOutput : Option String
  batchSession : Option Session
deriving DecidableEq

/-- Single-file output path resolution (lines 166-168): if the given output
path is an existing directory, place `<input stem>_no_bg.png` inside it;
otherwise use the given output path as is. -/
def resolvedOutput (fs : RbFs) (args : Args) : String :=
  if fs.kindOf args.output = .dir then
    joinPath args.output (pathStem args.input ++ "_no_bg.png")
  else args.output

/-- `main` (lines 104-185): validate the input path, then dispatch to
single-file or batch processing; falling off the end of `main` is exit
status 0. -/
def main (r : Rembg) (fs : RbFs) (args : Args) : RunResult :=
  if fs.kindOf args.input = .missing then ⟨1, [], none, none, none, none⟩
  else if fs.kindOf args.input = .file then
    if asciiLower (pathSuffix args.input) ≠ ".png" then ⟨1, [], none, none, none, none⟩
    else
      let output_path := resolvedOutput fs args
      let res := remove_background_from_file r fs args.input output_path args.model
      ⟨0, res.written, none, res.call, some output_path, none⟩
  else if fs.kindOf args.input = .dir then
    let fr := remove_background_from_folder r fs args.input args.output args.model
    ⟨0, fr.written, fr.summary, none, none, fr.sessionUsed⟩
  else ⟨1, [], none, none, none, none⟩

end RB

namespace CMP

/-- A PNG image file on disk: pixel dimensions and raw bytes. -/
structure ImgFile where
  w : Nat
  h : Nat
  bytes : List Nat
deriving DecidableEq

/-- Ambient state for the comparison tool: a wall clock (which the
generators never read) and the files on disk, keyed by path. -/
structure Fs where
  time : Nat
  fileAt : String → Option ImgFile

/-- The fixed list of five expected base filenames (lines 27-33, 149-155). -/
def template_images : List String :=
  ["black_cocker_spaniel_1.png",
   "border_collie_1.png",
   "german_sheperd_1.png",
   "golden_retriever_1.png",
   "siberian_husky_1.png"]

def img_width : Nat := 300
def img_height : Nat := 300
def padding : Nat := 20
def title_height : Nat := 60
def label_height : Nat := 40

/-- Line 43: `grid_width = (img_width * 2 + padding * 3)`. -/
def grid_width : Nat := img_width * 2 + padding * 3

/-- Line 44: `grid_height = (img_height + label_height + padding) * 5 + title_height + padding`. -/
def grid_height : Nat := (img_height + label_height + padding) * 5 + title_height + padding

/-- ASCII uppercasing of one character. -/
def asciiUpperChar (c : Char) : Char :=
  if 'a' ≤ c ∧ c ≤ 'z' then Char.ofNat (c.toNat - 32) else c

def isAsciiAlpha (c : Char) : Bool :=
  ('a' ≤ c && c ≤ 'z') || ('A' ≤ c && c ≤ 'Z')

/-- Models Python `str.title` on ASCII text: the first letter of each word
is uppercased, the following letters lowercased. -/
def pyTitleAux : Bool → List Char → List Char
  | _, [] => []
  | prevAlpha, c :: rest =>
    let c' := if isAsciiAlpha c then
        (if prevAlpha then asciiLowerChar c else asciiUpperChar c)
      else c
    c' :: pyTitleAux (isAsciiAlpha c) rest

def pyTitle (s : String) : String := ⟨pyTitleAux false s.data⟩

/-- `Path(name).stem.replace('_', ' ').title()` — the displayed label. -/
def labelOf (name : String) : String :=
  pyTitle ⟨(pathStem name).data.map (fun c => if c = '_' then ' ' else c)⟩

/-- The processed counterpart's filename, `<stem>_no_bg.png`. -/
def outputName (t : String) : String := pathStem t ++ "_no_bg.png"

/-- Models PIL `Image.thumbnail((bw, bh))`: never upscales; otherwise
scales down to fit the box preserving aspect ratio (rounding simplified). -/
def thumbnailFit (w h bw bh : Nat) : Nat × Nat :=
  if w ≤ bw ∧ h ≤ bh then (w, h)
  else if w * bh ≥ h * bw then (bw, max 1 (h * bw / w))
  else (max 1 (w * bh / h), bh)

/-- One emitted comparison row: everything the loop body (lines 86-129)
draws for a pair whose two files are present. -/
structure Row where
  name : String
  y : Nat
  beforeSize : Nat × Nat
  afterSize : Nat × Nat
  beforePos : Nat × Nat
  afterPastePos : Nat × Nat
  label : String
  labelY : Nat
deriving DecidableEq

/-- The per-pair loop of `create_comparison_grid` (lines 74-129): a missing
input or output file prints a warning and leaves the cursor `y_pos`
unchanged; otherwise a row is drawn at the cursor and the cursor advances
by `img_height + label_height + padding`. -/
def gridLoop (fileAt : String → Option ImgFile) (input_folder output_folder : String) :
    List String → Nat → List Row × List String
  | [], _ => ([], [])
  | t :: rest, y_pos =>
    match fileAt (joinPath input_folder t) with
    | none =>
      let acc := gridLoop fileAt input_folder output_folder rest y_pos
      (acc.1, ("Warning: " ++ (t ++ " not found in input folder")) :: acc.2)
    | some before_img =>
      match fileAt (joinPath output_folder (outputName t)) with
      | none =>
        let acc := gridLoop fileAt input_folder output_folder rest y_pos
        (acc.1, ("Warning: " ++ (outputName t ++ " not found in output folder")) :: acc.2)
      | some after_img =>
        let bsz := thumbnailFit before_img.w before_img.h img_width img_height
        let asz := thumbnailFit after_img.w after_img.h img_width img_height
        let row : Row :=
          { name := t
            y := y_pos
            beforeSize := bsz
            afterSize := asz
            beforePos := (padding + (img_width - bsz.1) / 2,
                          y_pos + padding + (img_height - bsz.2) / 2)
            afterPastePos := (padding * 2 + img_width, y_pos + padding)
            label := labelOf t
            labelY := y_pos + padding + img_height + 10 }
        let acc := gridLoop fileAt input_folder output_folder rest
          (y_pos + img_height + label_height + padding)
        (row :: acc.1, (" Added comparison for " ++ t) :: acc.2)

/-- Outcome of `create_comparison_grid`: canvas size, title, the emitted
rows in order, the printed messages, and the saved file. -/
structure GridResult where
  width : Nat
  height : Nat
  title : String
  rows : List Row
  messages : List String
  savedPath : String
  savedBytes : List Nat
deriving DecidableEq

/-- Flat serialization of one row's drawn content. -/
def encodeRow (r : Row) : List Nat :=
  [r.y, r.beforeSize.1, r.beforeSize.2, r.afterSize.1, r.afterSize.2,
   r.beforePos.1, r.beforePos.2, r.afterPastePos.1, r.afterPastePos.2, r.labelY]
  ++ r.label.data.map Char.toNat

/-- Stand-in for PIL's deterministic PNG serialization of the finished
canvas: a flat encoding of the canvas dimensions and drawn content. -/
def encodeGrid (w h : Nat) (rows : List Row) : List Nat :=
  w :: h :: rows.foldr (fun r acc => encodeRow r ++ acc) []

/-- `create_comparison_grid` (lines 14-133).  The loop cursor starts at
`title_height` and advances by `label_height` after the column headers
(lines 67-71) before the pair loop begins. -/
def create_comparison_grid (fs : Fs)
    (input_folder output_folder comparison_output : String) : GridResult :=
  let loopRes := gridLoop fs.fileAt input_folder output_folder template_images
    (title_height + label_height)
  { width := grid_width
    height := grid_height
    title := "Before & After Comparison"
    rows := loopRes.1
    messages := loopRes.2 ++ ["\n Comparison grid saved to: " ++ comparison_output]
    savedPath := comparison_output
    savedBytes := encodeGrid grid_width grid_height loopRes.1 }

/-- The base64 alphabet of RFC 4648, as used by Python `base64.b64encode`. -/
def b64Table : List Char :=
  "ABCDEFGHIJKLMNOPQRSTUVWXYZabcdefghijklmnopqrstuvwxyz0123456789+/".data

def tblChar (n : Nat) : Char := b64Table.getD n 'A'

/-- `base64.b64encode` over bytes (values < 256), producing characters. -/
def b64encodeBytes : List Nat → List Char
  | [] => []
  | [a] => [tblChar (a / 4), tblChar (a % 4 * 16), '=', '=']
  | [a, b] => [tblChar (a / 4), tblChar (a % 4 * 16 + b / 16), tblChar (b % 16 * 4), '=']
  | a :: b :: c :: rest =>
    tblChar (a / 4) :: tblChar (a % 4 * 16 + b / 16) ::
    tblChar (b % 16 * 4 + c / 64) :: tblChar (c % 64) :: b64encodeBytes rest

def b64String (bs : List Nat) : String := ⟨b64encodeBytes bs⟩

/-- `img_to_base64` (lines 290-293) applied to a file's bytes. -/
def img_to_base64 (f : ImgFile) : String := b64String f.bytes

/-- First half of the fixed document head of `create_html_comparison`
(lines 157-279). The head literal is split at a line boundary into two
parts whose concatenation is the source string, so that each part stays
small enough to evaluate. -/
def htmlHeaderA : String :=
"<!DOCTYPE html>
<html lang=\"en\">
<head>
    <meta charset=\"UTF-8\">
    <meta name=\"viewport\" content=\"width=device-width, initial-scale=1.0\">
    <title>Before & After Comparison</title>
    <style>
        * \x7b
            margin: 0;
            padding: 0;
            box-sizing: border-box;
        \x7d
        
        body \x7b
            font-family: -apple-system, BlinkMacSystemFont, \x27Segoe UI\x27, Roboto, Oxygen, Ubuntu, Cantarell, sans-serif;
            background: linear-gradient(135deg, #667eea 0%, #764ba2 100%);
            padding: 40px 20px;
            min-height: 100vh;
        \x7d
        
        .container \x7b
            max-width: 1400px;
            margin: 0 auto;
        \x7d
        
        h1 \x7b
            text-align: center;
            color: white;
            font-size: 3em;
            margin-bottom: 40px;
            text-shadow: 2px 2px 4px rgba(0,0,0,0.3);
        \x7d
        
        .comparison-grid \x7b
            display: grid;
            grid-template-columns: repeat(auto-fit, minmax(600px, 1fr));
            gap: 30px;
            margin-bottom: 40px;
        \x7d
        
        .comparison-item \x7b
            background: white;
            border-radius: 12px;
            padding: 20px;
            box-shadow: 0 10px 30px rgba(0,0,0,0.3);
            transition: transform 0.3s ease;
        \x7d
        
        .comparison-item:hover \x7b
            transform: translateY(-5px);
        \x7d
        
        .comparison-title \x7b
            text-align: center;
            font-size: 1.5em;
            margin-bottom: 20px;
            color: #333;
"

/-- Second half of the fixed document head. -/
def htmlHeaderB : String :=
"            text-transform: capitalize;
        \x7d
        
        .image-pair \x7b
            display: grid;
            grid-template-columns: 1fr 1fr;
            gap: 15px;
        \x7d
        
        .image-container \x7b
            position: relative;
            overflow: hidden;
            border-radius: 8px;
            border: 2px solid #e0e0e0;
        \x7d
        
        .image-container img \x7b
            width: 100%;
            height: 300px;
            object-fit: contain;
            display: block;
        \x7d
        
        .before-container \x7b
            background: #f5f5f5;
        \x7d
        
        .after-container \x7b
            background: 
                repeating-linear-gradient(
                    45deg,
                    #f0f0f0,
                    #f0f0f0 10px,
                    #e0e0e0 10px,
                    #e0e0e0 20px
                );
        \x7d
        
        .label \x7b
            position: absolute;
            top: 10px;
            left: 10px;
            background: rgba(0, 0, 0, 0.7);
            color: white;
            padding: 5px 12px;
            border-radius: 4px;
            font-size: 0.9em;
            font-weight: bold;
        \x7d
        
        @media (max-width: 768px) \x7b
            .comparison-grid \x7b
                grid-template-columns: 1fr;
            \x7d
            
            h1 \x7b
                font-size: 2em;
            \x7d
        \x7d
    </style>
</head>
<body>
    <div class=\"container\">
        <h1> Before & After Comparison</h1>
        <div class=\"comparison-grid\">
"

/-- The fixed document head of `create_html_comparison` (lines 157-279). -/
def htmlHeader : String := htmlHeaderA ++ htmlHeaderB

/-- The per-pair HTML block (lines 300-314), part preceding `before_b64`. -/
def blockPre (label : String) : String :=
"
            <div class=\"comparison-item\">
                <div class=\"comparison-title\">" ++ label ++ "</div>
                <div class=\"image-pair\">
                    <div class=\"image-container before-container\">
                        <div class=\"label\">BEFORE</div>
                        <img src=\"data:image/png;base64,"

/-- The per-pair HTML block, part between `before_b64` and `after_b64`. -/
def blockMid : String :=
"\" alt=\"Before\">
                    </div>
                    <div class=\"image-container after-container\">
                        <div class=\"label\">AFTER</div>
                        <img src=\"data:image/png;base64,"

/-- The per-pair HTML block, part following `after_b64`. -/
def blockPost : String :=
"\" alt=\"After\">
                    </div>
                </div>
            </div>
"

/-- The full per-pair HTML block appended for one included pair (the
f-string of lines 300-314). -/
def itemBlock (label before_b64 after_b64 : String) : String :=
  blockPre label ++ before_b64 ++ blockMid ++ after_b64 ++ blockPost

/-- The closing part of the document (lines 316-321). -/
def htmlFooter : String :=
"
        </div>
    </div>
</body>
</html>
"

/-- The loop of `create_html_comparison` (lines 282-314): append a block
for each pair whose input and output files both exist; otherwise continue
silently. -/
def htmlBody (fileAt : String → Option ImgFile) (input_folder output_folder : String) :
    List String → String
  | [] => ""
  | t :: rest =>
    match fileAt (joinPath input_folder t),
          fileAt (joinPath output_folder (outputName t)) with
    | some bi, some ai =>
      itemBlock (labelOf t) (img_to_base64 bi) (img_to_base64 ai)
        ++ htmlBody fileAt input_folder output_folder rest
    | _, _ => htmlBody fileAt input_folder output_folder rest

/-- The pairs the HTML loop includes, with their two files, in order. -/
def includedPairs (fileAt : String → Option ImgFile) (input_folder output_folder : String) :
    List String → List (String × ImgFile × ImgFile)
  | [] => []
  | t :: rest =>
    match fileAt (joinPath input_folder t),
          fileAt (joinPath output_folder (outputName t)) with
    | some bi, some ai => (t, bi, ai) :: includedPairs fileAt input_folder output_folder rest
    | _, _ => includedPairs fileAt input_folder output_folder rest

/-- Outcome of `create_html_comparison`: document text, destination path,
printed messages. -/
structure HtmlResult where
  content : String
  savedPath : String
  messages : List String
deriving DecidableEq

/-- `create_html_comparison` (lines 136-327). -/
def create_html_comparison (fs : Fs)
    (input_folder output_folder html_output : String) : HtmlResult :=
  { content := htmlHeader
      ++ htmlBody fs.fileAt input_folder output_folder template_images
      ++ htmlFooter
    savedPath := html_output
    messages := [" HTML comparison saved to: " ++ html_output] }

/-- The `src` attribute values the HTML generator emits, in document
order: one data URI per image of each included pair. -/
def imgSrcs (fs : Fs) (input_folder output_folder : String) : List String :=
  (includedPairs fs.fileAt input_folder output_folder template_images).foldr
    (fun p acc => ("data:image/png;base64," ++ img_to_base64 p.2.1)
      :: ("data:image/png;base64," ++ img_to_base64 p.2.2) :: acc) []

/-- Number of start positions at which `pat` occurs in a character list. -/
def countOcc (pat : List Char) : List Char → Nat
  | [] => 0
  | c :: rest => (if pat.isPrefixOf (c :: rest) then 1 else 0) + countOcc pat rest

/-- The BEFORE image-label element. -/
def beforeLabelPat : List Char := "<div class=\"label\">BEFORE</div>".data

/-- The AFTER image-label element. -/
def afterLabelPat : List Char := "<div class=\"label\">AFTER</div>".data

/-- Characters `base64.b64encode` can produce. -/
def b64Allowed : List Char := b64Table ++ ['=']

/-- Whether a printed message is one of the generators' warnings. -/
def isWarning (m : String) : Bool := "Warning: ".data.isPrefixOf m.data

/-- Both files of a pair exist (the two existence tests of the loops). -/
def present (fileAt : String → Option ImgFile) (input_folder output_folder t : String) : Bool :=
  (fileAt (joinPath input_folder t)).isSome
    && (fileAt (joinPath output_folder (outputName t))).isSome

end CMP

/-! Concrete instances used by witnesses and counterexamples. -/

/-- A rembg oracle whose inference always succeeds. -/
def rOk : RB.Rembg := ⟨fun _ _ => .ok [0]⟩

/-- A rembg oracle that fails on the byte payload `[9]` and succeeds otherwise. -/
def rFlaky : RB.Rembg := ⟨fun _ d => if d = [9] then .error "corrupt" else .ok [0]⟩

/-- Batch filesystem: directory `in` holding two PNG files, one of which
reads to the corrupt payload `[9]`. -/
def fsBatch : RB.RbFs :=
  { kindOf := fun p => if p = "in" then .dir else .missing
    readFile := fun p => if p = "in/b.png" then .ok [9] else .ok [1]
    writeOk := fun _ => true
    pngList := fun p => if p = "in" then ["a.png", "b.png"] else [] }

/-- Single-file filesystem: `a.png` is a file, `batch` a directory with one
PNG inside, everything else missing. -/
def fsSingle : RB.RbFs :=
  { kindOf := fun p => if p = "a.png" then .file else if p = "batch" then .dir else .missing
    readFile := fun _ => .ok [1, 2, 3]
    writeOk := fun _ => true
    pngList := fun p => if p = "batch" then ["dog.png"] else [] }

/-- Single-file filesystem whose output path `outdir` is an existing directory. -/
def fsDirOut : RB.RbFs :=
  { kindOf := fun p => if p = "a.png" then .file else if p = "outdir" then .dir else .missing
    readFile := fun _ => .ok [1]
    writeOk := fun _ => true
    pngList := fun _ => [] }

/-- Comparison filesystem with no files at all. -/
def fileAtNone : String → Option CMP.ImgFile := fun _ => none

def cfsNone : CMP.Fs := ⟨0, fileAtNone⟩

/-- Comparison filesystem in which exactly 3 of the 5 pairs are complete. -/
def fileAtThree : String → Option CMP.ImgFile := fun p =>
  if p = "input/black_cocker_spaniel_1.png" ∨ p = "output/black_cocker_spaniel_1_no_bg.png"
      ∨ p = "input/border_collie_1.png" ∨ p = "output/border_collie_1_no_bg.png"
      ∨ p = "input/golden_retriever_1.png" ∨ p = "output/golden_retriever_1_no_bg.png"
  then some ⟨4, 4, [1, 2, 3]⟩ else none

def cfsThree : CMP.Fs := ⟨0, fileAtThree⟩

/-- Comparison filesystem in which exactly 1 of the 5 pairs is complete. -/
def fileAtOne : String → Option CMP.ImgFile := fun p =>
  if p = "input/border_collie_1.png" ∨ p = "output/border_collie_1_no_bg.png"
  then some ⟨4, 4, [137, 80, 78]⟩ else none

def cfsOne : CMP.Fs := ⟨0, fileAtOne⟩

/-- Same files as `cfsOne` at a later clock time. -/
def cfsOneLater : CMP.Fs := ⟨1, fileAtOne⟩

/-- Comparison filesystem in which exactly 2 of the 5 pairs are complete. -/
def fileAtTwo : String → Option CMP.ImgFile := fun p =>
  if p = "input/border_collie_1.png" ∨ p = "output/border_collie_1_no_bg.png"
      ∨ p = "input/siberian_husky_1.png" ∨ p = "output/siberian_husky_1_no_bg.png"
  then some ⟨10, 10, [1]⟩ else none

def cfsTwo : CMP.Fs := ⟨0, fileAtTwo⟩

/-- The second row `cfsTwo` produces (the siberian husky pair, drawn
directly under the border collie row). -/
def rowW : CMP.Row :=
  { name := "siberian_husky_1.png"
    y := 460
    beforeSize := (10, 10)
    afterSize := (10, 10)
    beforePos := (165, 625)
    afterPastePos := (340, 480)
    label := "Siberian Husky 1"
    labelY := 790 }

/-! General helper lemmas. -/

theorem countP_not_add {α : Type} (p : α → Bool) (l : List α) :
    l.countP p + l.countP (fun a => !p a) = l.length := by
  induction l with
  | nil => rfl
  | cons a l ih =>
    simp only [List.countP_cons]
    cases h : p a <;> simp [h] <;> omega

namespace RB

theorem folderLoop_counts (r : Rembg) (fs : RbFs) (session : Session)
    (input_folder output_folder : String) (files : List String) :
    (folderLoop r fs session input_folder output_folder files).1
      = files.countP (fun n => (processPng r fs session input_folder output_folder n).1)
    ∧ (folderLoop r fs session input_folder output_folder files).2.1
      = files.countP (fun n => !(processPng r fs session input_folder output_folder n).1) := by
  induction files with
  | nil => exact ⟨rfl, rfl⟩
  | cons n rest ih =>
    simp only [folderLoop, List.countP_cons]
    cases h : (processPng r fs session input_folder output_folder n).1 <;>
      simp [h, ih.1, ih.2]

theorem single_written (r : Rembg) (fs : RbFs) (input_path output_path model : String) :
    (remove_background_from_file r fs input_path output_path model).written = []
    ∨ (remove_background_from_file r fs input_path output_path model).written
      = [output_path] := by
  unfold remove_background_from_file
  rcases h1 : fs.readFile input_path with e | d
  · simp
  · rcases h2 : r.infer none d with e | o
    · simp [h2]
    · by_cases hw : fs.writeOk output_path <;> simp [h2, hw]

theorem processPng_written (r : Rembg) (fs : RbFs) (session : Session)
    (input_folder output_folder name : String) :
    (processPng r fs session input_folder output_folder name).2 = []
    ∨ (processPng r fs session input_folder output_folder name).2
      = [joinPath output_folder (pathStem name ++ "_no_bg.png")] := by
  unfold processPng
  rcases h1 : fs.readFile (joinPath input_folder name) with e | d
  · simp
  · rcases h2 : r.infer (some session) d with e | o
    · simp [h2]
    · by_cases hw : fs.writeOk (joinPath output_folder (pathStem name ++ "_no_bg.png")) <;>
        simp [h2, hw]

theorem folderLoop_written (r : Rembg) (fs : RbFs) (session : Session)
    (input_folder output_folder : String) (files : List String) (p : String)
    (hp : p ∈ (folderLoop r fs session input_folder output_folder files).2.2) :
    ∃ name ∈ files, p = joinPath output_folder (pathStem name ++ "_no_bg.png") := by
  induction files with
  | nil => simp [folderLoop] at hp
  | cons n rest ih =>
    simp only [folderLoop] at hp
    have hsplit : p ∈ (processPng r fs session input_folder output_folder n).2
        ∨ p ∈ (folderLoop r fs session input_folder output_folder rest).2.2 := by
      cases h : (processPng r fs session input_folder output_folder n).1 <;>
        simp [h] at hp <;> tauto
    rcases hsplit with h1 | h2
    · rcases processPng_written r fs session input_folder output_folder n with he | he <;>
        rw [he] at h1
      · simp at h1
      · simp at h1
        exact ⟨n, List.mem_cons_self n rest, h1⟩
    · rcases ih h2 with ⟨m, hm, he⟩
      exact ⟨m, List.mem_cons_of_mem _ hm, he⟩

/-- C1: the CLI exits with status 1 exactly when the input path does not
exist, or is a file whose lowercased extension is not ".png", or is
neither a file nor a directory; in every other run — single-file or batch,
regardless of per-file failures — the exit status is 0. -/
theorem c1_exit_code (r : Rembg) (fs : RbFs) (args : Args) :
    ((main r fs args).exitCode = 1 ↔
       (fs.kindOf args.input = PathKind.missing
         ∨ (fs.kindOf args.input = PathKind.file
             ∧ asciiLower (pathSuffix args.input) ≠ ".png")
         ∨ (fs.kindOf args.input ≠ PathKind.file ∧ fs.kindOf args.input ≠ PathKind.dir)))
    ∧ ((main r fs args).exitCode = 0 ∨ (main r fs args).exitCode = 1) := by
  cases hk : fs.kindOf args.input <;>
    by_cases hs : asciiLower (pathSuffix args.input) = ".png" <;>
      simp [main, hk, hs]

/-- C2: a batch run over a nonempty folder of N PNG files of which K fail
in the read-infer-write step prints the summary (N − K, K), and the two
counters sum to N. -/
theorem c2_batch_counters (r : Rembg) (fs : RbFs)
    (input_folder output_folder model : String)
    (h : fs.pngList input_folder ≠ []) :
    (remove_background_from_folder r fs input_folder output_folder model).summary
      = some ((fs.pngList input_folder).length
            - (fs.pngList input_folder).countP
                (fun n => !(processPng r fs ⟨model⟩ input_folder output_folder n).1),
          (fs.pngList input_folder).countP
              (fun n => !(processPng r fs ⟨model⟩ input_folder output_folder n).1))
    ∧ (fs.pngList input_folder).length
        - (fs.pngList input_folder).countP
            (fun n => !(processPng r fs ⟨model⟩ input_folder output_folder n).1)
        + (fs.pngList input_folder).countP
            (fun n => !(processPng r fs ⟨model⟩ input_folder output_folder n).1)
      = (fs.pngList input_folder).length := by
  have hc := folderLoop_counts r fs ⟨model⟩ input_folder output_folder (fs.pngList input_folder)
  have hsum := countP_not_add
    (fun n => (processPng r fs ⟨model⟩ input_folder output_folder n).1)
    (fs.pngList input_folder)
  simp only [Bool.not_eq_true] at hsum
  constructor
  · simp only [remove_background_from_folder, if_neg h]
    rw [hc.1, hc.2]
    congr 2
    omega
  · omega

/-- C2 witness: a folder with two PNG files, one of which reads to the
corrupt payload, yields the summary (1, 1). -/
theorem c2_batch_counters_witness :
    fsBatch.pngList "in" ≠ []
    ∧ ((remove_background_from_folder rFlaky fsBatch "in" "out" "u2net").summary
        = some ((fsBatch.pngList "in").length
              - (fsBatch.pngList "in").countP
                  (fun n => !(processPng rFlaky fsBatch ⟨"u2net"⟩ "in" "out" n).1),
            (fsBatch.pngList "in").countP
                (fun n => !(processPng rFlaky fsBatch ⟨"u2net"⟩ "in" "out" n).1))
      ∧ (fsBatch.pngList "in").length
          - (fsBatch.pngList "in").countP
              (fun n => !(processPng rFlaky fsBatch ⟨"u2net"⟩ "in" "out" n).1)
          + (fsBatch.pngList "in").countP
              (fun n => !(processPng rFlaky fsBatch ⟨"u2net"⟩ "in" "out" n).1)
        = (fsBatch.pngList "in").length) :=
  ⟨by decide, c2_batch_counters rFlaky fsBatch "in" "out" "u2net" (by decide)⟩

/-- C3, code evaluated at the failing input: in single-file mode the
inference call carries no session, so it runs with the library default
u2net even when the caller selected u2netp; in batch mode the session is
built from the selected model. -/
theorem c3_single_file_model_ignored :
    ((remove_background_from_file rOk fsSingle "a.png" "out.png" "u2netp").call.map
        effectiveModel = some "u2net")
    ∧ "u2net" ≠ "u2netp"
    ∧ (remove_background_from_folder rOk fsSingle "batch" "out" "u2netp").sessionUsed
        = some ⟨"u2netp"⟩ := by
  refine ⟨by decide, by decide, by decide⟩

/-- C4 counterexample: a single-file run with input `a.png` and
non-directory output path `b.png` writes the file `b.png`, which is not
the `_no_bg`-derived name of the input. -/
theorem c4_counterexample :
    (main rOk fsSingle ⟨"a.png", "b.png", "u2net"⟩).writes = ["b.png"]
    ∧ "b.png" ≠ pathStem "a.png" ++ "_no_bg.png" := by
  exact ⟨by decide, by decide⟩

/-- C4 amended: every file the tool writes is either a batch output named
`<stem>_no_bg.png` inside the output folder, or the single-file output —
which is `<stem>_no_bg.png` inside the output directory when the output
path is an existing directory but is the caller's output path verbatim
otherwise. -/
theorem c4_amended (r : Rembg) (fs : RbFs) (args : Args) (p : String)
    (hp : p ∈ (main r fs args).writes) :
    (∃ name ∈ fs.pngList args.input,
        p = joinPath args.output (pathStem name ++ "_no_bg.png"))
    ∨ (fs.kindOf args.input = PathKind.file ∧ fs.kindOf args.output = PathKind.dir
        ∧ p = joinPath args.output (pathStem args.input ++ "_no_bg.png"))
    ∨ (fs.kindOf args.input = PathKind.file ∧ fs.kindOf args.output ≠ PathKind.dir
        ∧ p = args.output) := by
  cases hk : fs.kindOf args.input with
  | missing => simp [main, hk] at hp
  | other => simp [main, hk] at hp
  | file =>
    by_cases hs : asciiLower (pathSuffix args.input) = ".png"
    · simp [main, hk, hs] at hp
      rcases single_written r fs args.input (resolvedOutput fs args) args.model with he | he <;>
        rw [he] at hp
      · simp at hp
      · simp at hp
        subst hp
        unfold resolvedOutput
        by_cases hd : fs.kindOf args.output = PathKind.dir
        · exact Or.inr (Or.inl ⟨rfl, hd, by rw [if_pos hd]⟩)
        · exact Or.inr (Or.inr ⟨rfl, hd, by rw [if_neg hd]⟩)
    · simp [main, hk, hs] at hp
  | dir =>
    simp [main, hk] at hp
    by_cases hnil : fs.pngList args.input = []
    · simp only [remove_background_from_folder, if_pos hnil] at hp
      simp at hp
    · simp only [remove_background_from_folder, if_neg hnil] at hp
      exact Or.inl (folderLoop_written r fs ⟨args.model⟩ args.input args.output
        (fs.pngList args.input) p hp)

/-- C4 amended, witness at the single-file run writing `b.png`. -/
theorem c4_amended_witness :
    "b.png" ∈ (main rOk fsSingle ⟨"a.png", "b.png", "u2net"⟩).writes
    ∧ ((∃ name ∈ fsSingle.pngList "a.png",
          "b.png" = joinPath "b.png" (pathStem name ++ "_no_bg.png"))
      ∨ (fsSingle.kindOf "a.png" = PathKind.file ∧ fsSingle.kindOf "b.png" = PathKind.dir
          ∧ "b.png" = joinPath "b.png" (pathStem "a.png" ++ "_no_bg.png"))
      ∨ (fsSingle.kindOf "a.png" = PathKind.file ∧ fsSingle.kindOf "b.png" ≠ PathKind.dir
          ∧ "b.png" = "b.png")) :=
  ⟨by decide, c4_amended rOk fsSingle ⟨"a.png", "b.png", "u2net"⟩ "b.png" (by decide)⟩

/-- C9: in single-file mode, the resolved output path is
`<output>/<input stem>_no_bg.png` when the output path is an existing
directory and the caller's output path verbatim otherwise, and the run
writes either nothing (on failure) or exactly that resolved path. -/
theorem c9_output_resolution (r : Rembg) (fs : RbFs) (args : Args)
    (hf : fs.kindOf args.input = PathKind.file)
    (hs : asciiLower (pathSuffix args.input) = ".png") :
    (main r fs args).singleOutput
      = some (if fs.kindOf args.output = PathKind.dir
          then joinPath args.output (pathStem args.input ++ "_no_bg.png")
          else args.output)
    ∧ ((main r fs args).writes = []
      ∨ (main r fs args).writes
        = [if fs.kindOf args.output = PathKind.dir
           then joinPath args.output (pathStem args.input ++ "_no_bg.png")
           else args.output]) := by
  have hm : main r fs args
      = ⟨0, (remove_background_from_file r fs args.input (resolvedOutput fs args) args.model).written,
         none,
         (remove_background_from_file r fs args.input (resolvedOutput fs args) args.model).call,
         some (resolvedOutput fs args), none⟩ := by
    simp [main, hf, hs]
  rw [hm]
  refine ⟨rfl, ?_⟩
  exact single_written r fs args.input (resolvedOutput fs args) args.model

/-- C9 witness: output path `outdir` is an existing directory, so the run
writes `outdir/a_no_bg.png`. -/
theorem c9_output_resolution_witness :
    fsDirOut.kindOf "a.png" = PathKind.file
    ∧ asciiLower (pathSuffix "a.png") = ".png"
    ∧ ((main rOk fsDirOut ⟨"a.png", "outdir", "u2net"⟩).singleOutput
        = some (if fsDirOut.kindOf "outdir" = PathKind.dir
            then joinPath "outdir" (pathStem "a.png" ++ "_no_bg.png")
            else "outdir")
      ∧ ((main rOk fsDirOut ⟨"a.png", "outdir", "u2net"⟩).writes = []
        ∨ (main rOk fsDirOut ⟨"a.png", "outdir", "u2net"⟩).writes
          = [if fsDirOut.kindOf "outdir" = PathKind.dir
             then joinPath "outdir" (pathStem "a.png" ++ "_no_bg.png")
             else "outdir"])) :=
  ⟨by decide, by decide,
    c9_output_resolution rOk fsDirOut ⟨"a.png", "outdir", "u2net"⟩ (by decide) (by decide)⟩

end RB

namespace CMP

theorem isPrefixOf_head_false (a b : Char) (as bs : List Char) (h : a ≠ b) :
    (a :: as).isPrefixOf (b :: bs) = false := by
  show (a == b && as.isPrefixOf bs) = false
  simp [h]

theorem isWarning_mk_head (c : Char) (l : List Char) (h : c ≠ 'W') :
    isWarning ⟨c :: l⟩ = false := by
  show ("Warning: ".data).isPrefixOf (c :: l) = false
  have e : "Warning: ".data = 'W' :: "arning: ".data := rfl
  rw [e]
  exact isPrefixOf_head_false _ _ _ _ (fun he => h he.symm)

theorem isWarning_warning (s : String) : isWarning ("Warning: " ++ s) = true := by
  show ("Warning: ".data).isPrefixOf ("Warning: " ++ s).data = true
  rw [String.data_append, List.isPrefixOf_iff_prefix]
  exact List.prefix_append _ _

theorem isWarning_added (s : String) : isWarning (" Added comparison for " ++ s) = false := by
  have e : (" Added comparison for " ++ s)
      = ⟨' ' :: ("Added comparison for ".data ++ s.data)⟩ := rfl
  rw [e]
  exact isWarning_mk_head _ _ (by decide)

theorem isWarning_grid_saved (s : String) :
    isWarning ("\n Comparison grid saved to: " ++ s) = false := by
  have e : ("\n Comparison grid saved to: " ++ s)
      = ⟨'\n' :: (" Comparison grid saved to: ".data ++ s.data)⟩ := rfl
  rw [e]
  exact isWarning_mk_head _ _ (by decide)

theorem isWarning_html_saved (s : String) :
    isWarning (" HTML comparison saved to: " ++ s) = false := by
  have e : (" HTML comparison saved to: " ++ s)
      = ⟨' ' :: ("HTML comparison saved to: ".data ++ s.data)⟩ := rfl
  rw [e]
  exact isWarning_mk_head _ _ (by decide)

theorem gridLoop_length (fileAt : String → Option ImgFile)
    (input_folder output_folder : String) :
    ∀ (ts : List String) (y : Nat),
      (gridLoop fileAt input_folder output_folder ts y).1.length
        = ts.countP (present fileAt input_folder output_folder) := by
  intro ts
  induction ts with
  | nil => intro y; rfl
  | cons t rest ih =>
    intro y
    simp only [gridLoop]
    cases hb : fileAt (joinPath input_folder t) with
    | none => simp [present, List.countP_cons, hb, ih]
    | some bi =>
      cases ha : fileAt (joinPath output_folder (outputName t)) with
      | none => simp [present, List.countP_cons, hb, ha, ih]
      | some ai => simp [present, List.countP_cons, hb, ha, ih]

theorem gridLoop_warning_count (fileAt : String → Option ImgFile)
    (input_folder output_folder : String) :
    ∀ (ts : List String) (y : Nat),
      ((gridLoop fileAt input_folder output_folder ts y).2).countP isWarning
        = ts.countP (fun t => !present fileAt input_folder output_folder t) := by
  intro ts
  induction ts with
  | nil => intro y; rfl
  | cons t rest ih =>
    intro y
    simp only [gridLoop]
    cases hb : fileAt (joinPath input_folder t) with
    | none => simp [hb, present, List.countP_cons, isWarning_warning, ih]
    | some bi =>
      cases ha : fileAt (joinPath output_folder (outputName t)) with
      | none => simp [hb, ha, present, List.countP_cons, isWarning_warning, ih]
      | some ai => simp [hb, ha, present, List.countP_cons, isWarning_added, ih]

theorem gridLoop_y (fileAt : String → Option ImgFile)
    (input_folder output_folder : String) :
    ∀ (ts : List String) (y k : Nat) (row : Row),
      (gridLoop fileAt input_folder output_folder ts y).1[k]? = some row →
      row.y = y + (img_height + label_height + padding) * k := by
  intro ts
  induction ts with
  | nil => intro y k row hrow; simp [gridLoop] at hrow
  | cons t rest ih =>
    intro y k row hrow
    simp only [gridLoop] at hrow
    cases hb : fileAt (joinPath input_folder t) with
    | none =>
      rw [hb] at hrow
      exact ih y k row hrow
    | some bi =>
      rw [hb] at hrow
      cases ha : fileAt (joinPath output_folder (outputName t)) with
      | none =>
        rw [ha] at hrow
        exact ih y k row hrow
      | some ai =>
        rw [ha] at hrow
        cases k with
        | zero =>
          simp at hrow
          rw [← hrow]
          simp
        | succ k' =>
          simp only [List.getElem?_cons_succ] at hrow
          have := ih (y + img_height + label_height + padding) k' row hrow
          rw [this]
          ring

theorem includedPairs_length (fileAt : String → Option ImgFile)
    (input_folder output_folder : String) :
    ∀ ts : List String,
      (includedPairs fileAt input_folder output_folder ts).length
        = ts.countP (present fileAt input_folder output_folder) := by
  intro ts
  induction ts with
  | nil => rfl
  | cons t rest ih =>
    simp only [includedPairs]
    cases hb : fileAt (joinPath input_folder t) with
    | none => simp [present, List.countP_cons, hb, ih]
    | some bi =>
      cases ha : fileAt (joinPath output_folder (outputName t)) with
      | none => simp [present, List.countP_cons, hb, ha, ih]
      | some ai => simp [present, List.countP_cons, hb, ha, ih]

theorem countOcc_skip2 (pat p s : List Char)
    (hhead : ∀ hc, pat.head? = some hc → hc ∉ p) (hne : pat ≠ []) :
    countOcc pat (p ++ s) = countOcc pat s := by
  induction p with
  | nil => rfl
  | cons x p' ih =>
    cases pat with
    | nil => exact absurd rfl hne
    | cons hc pr =>
      have hx : hc ≠ x := fun he =>
        (hhead hc rfl) (by rw [he]; exact List.mem_cons_self x p')
      simp only [List.cons_append, countOcc, List.append_eq,
        isPrefixOf_head_false hc x pr (p' ++ s) hx,
        ih (fun z hz hm => hhead z hz (List.mem_cons_of_mem _ hm))]
      simp

theorem isPrefixOf_append_eq :
    ∀ (l : List Char) (pat b : List Char), l ≠ [] →
      (∀ c, l.getLast? = some c → c ∉ pat) →
      pat.isPrefixOf (l ++ b) = pat.isPrefixOf l := by
  intro l
  induction l with
  | nil => intro pat b hne _; exact absurd rfl hne
  | cons x l' ih =>
    intro pat b _ hlast
    cases pat with
    | nil => rfl
    | cons p pr =>
      show (p == x && pr.isPrefixOf (l' ++ b)) = (p == x && pr.isPrefixOf l')
      by_cases hx : p = x
      · subst hx
        cases l' with
        | nil => exact absurd (List.mem_cons_self p pr) (hlast p rfl)
        | cons z l'' =>
          have h1 : pr.isPrefixOf ((z :: l'') ++ b) = pr.isPrefixOf (z :: l'') :=
            ih pr b (by simp)
              (fun c hc hm =>
                hlast c (by rw [List.getLast?_cons_cons]; exact hc)
                  (List.mem_cons_of_mem _ hm))
          simp only [List.cons_append, List.append_eq] at h1 ⊢
          rw [h1]
      · have hf : (p == x) = false := by simp [hx]
        rw [hf]
        simp

theorem countOcc_append (pat l b : List Char)
    (hlast : ∀ c, l.getLast? = some c → c ∉ pat) :
    countOcc pat (l ++ b) = countOcc pat l + countOcc pat b := by
  induction l with
  | nil => simp [countOcc]
  | cons x l' ih =>
    have hstep : pat.isPrefixOf (x :: (l' ++ b)) = pat.isPrefixOf (x :: l') := by
      have := isPrefixOf_append_eq (x :: l') pat b (by simp) hlast
      rw [show (x :: l') ++ b = x :: (l' ++ b) from rfl] at this
      exact this
    have hl' : ∀ c, l'.getLast? = some c → c ∉ pat := by
      intro c hc
      cases l' with
      | nil => simp at hc
      | cons z l'' =>
        exact hlast c (by rw [List.getLast?_cons_cons]; exact hc)
    simp only [List.cons_append, countOcc, List.append_eq, hstep, ih hl']
    omega

theorem tblChar_mem (n : Nat) : tblChar n ∈ b64Allowed := by
  have e : tblChar n = b64Table.getD n 'A' := rfl
  rw [e, List.getD_eq_getElem?_getD]
  cases h : b64Table[n]? with
  | none => simp only [Option.getD_none]; decide
  | some c =>
    simp only [Option.getD_some]
    exact List.mem_append_left _ (List.getElem?_mem h)

theorem b64encode_mem (bs : List Nat) : ∀ ch ∈ b64encodeBytes bs, ch ∈ b64Allowed := by
  induction bs using b64encodeBytes.induct with
  | case1 => intro ch hc; simp [b64encodeBytes] at hc
  | case2 a =>
    intro ch hc
    simp only [b64encodeBytes, List.mem_cons, List.not_mem_nil, or_false] at hc
    rcases hc with rfl | rfl | rfl | rfl
    · exact tblChar_mem _
    · exact tblChar_mem _
    · decide
    · decide
  | case3 a b =>
    intro ch hc
    simp only [b64encodeBytes, List.mem_cons, List.not_mem_nil, or_false] at hc
    rcases hc with rfl | rfl | rfl | rfl
    · exact tblChar_mem _
    · exact tblChar_mem _
    · exact tblChar_mem _
    · decide
  | case4 a b c rest ih =>
    intro ch hc
    simp only [b64encodeBytes, List.mem_cons] at hc
    rcases hc with rfl | rfl | rfl | rfl | hm
    · exact tblChar_mem _
    · exact tblChar_mem _
    · exact tblChar_mem _
    · exact tblChar_mem _
    · exact ih ch hm

theorem b64_no_lt (bs : List Nat) : '<' ∉ b64encodeBytes bs := by
  intro h
  have hm := b64encode_mem bs '<' h
  revert hm
  decide

theorem b64encodeBytes_ne_nil (bs : List Nat) (h : bs ≠ []) : b64encodeBytes bs ≠ [] := by
  cases bs with
  | nil => exact absurd rfl h
  | cons a rest =>
    cases rest with
    | nil => simp [b64encodeBytes]
    | cons b rest2 =>
      cases rest2 with
      | nil => simp [b64encodeBytes]
      | cons c rest3 => simp [b64encodeBytes]

theorem b64String_ne_empty (bs : List Nat) (h : bs ≠ []) : b64String bs ≠ "" := by
  intro he
  exact b64encodeBytes_ne_nil bs h (congrArg String.data he)

theorem blockPre_facts (t : String) (ht : t ∈ template_images) :
    countOcc beforeLabelPat (blockPre (labelOf t)).data = 1
    ∧ countOcc afterLabelPat (blockPre (labelOf t)).data = 0
    ∧ (blockPre (labelOf t)).data.getLast? = some ',' := by
  fin_cases ht <;> exact ⟨by decide, by decide, by decide⟩

theorem blockMid_facts :
    countOcc beforeLabelPat blockMid.data = 0
    ∧ countOcc afterLabelPat blockMid.data = 1
    ∧ blockMid.data.getLast? = some ',' :=
  ⟨by decide, by decide, by decide⟩

theorem blockPost_facts :
    countOcc beforeLabelPat blockPost.data = 0
    ∧ countOcc afterLabelPat blockPost.data = 0
    ∧ blockPost.data.getLast? = some '\n' :=
  ⟨by decide, by decide, by decide⟩

theorem htmlHeaderA_facts :
    countOcc beforeLabelPat htmlHeaderA.data = 0
    ∧ countOcc afterLabelPat htmlHeaderA.data = 0
    ∧ htmlHeaderA.data.getLast? = some '\n' :=
  ⟨by decide, by decide, by decide⟩

theorem htmlHeaderB_facts :
    countOcc beforeLabelPat htmlHeaderB.data = 0
    ∧ countOcc afterLabelPat htmlHeaderB.data = 0
    ∧ htmlHeaderB.data.getLast? = some '\n' :=
  ⟨by decide, by decide, by decide⟩

theorem htmlHeader_facts :
    countOcc beforeLabelPat htmlHeader.data = 0
    ∧ countOcc afterLabelPat htmlHeader.data = 0
    ∧ htmlHeader.data.getLast? = some '\n' := by
  have hA := htmlHeaderA_facts
  have hB := htmlHeaderB_facts
  have hAlast : ∀ pat, pat = beforeLabelPat ∨ pat = afterLabelPat →
      ∀ c, htmlHeaderA.data.getLast? = some c → c ∉ pat := by
    intro pat hpat c hcq
    rw [hA.2.2] at hcq
    injection hcq with h2
    subst h2
    rcases hpat with rfl | rfl <;> decide
  refine ⟨?_, ?_, ?_⟩
  · show countOcc beforeLabelPat (htmlHeaderA ++ htmlHeaderB).data = 0
    rw [String.data_append,
      countOcc_append beforeLabelPat htmlHeaderA.data htmlHeaderB.data
        (hAlast beforeLabelPat (Or.inl rfl)), hA.1, hB.1]
  · show countOcc afterLabelPat (htmlHeaderA ++ htmlHeaderB).data = 0
    rw [String.data_append,
      countOcc_append afterLabelPat htmlHeaderA.data htmlHeaderB.data
        (hAlast afterLabelPat (Or.inr rfl)), hA.2.1, hB.2.1]
  · show (htmlHeaderA ++ htmlHeaderB).data.getLast? = some '\n'
    rw [String.data_append, List.getLast?_append, hB.2.2]
    rfl

theorem htmlFooter_facts :
    countOcc beforeLabelPat htmlFooter.data = 0
    ∧ countOcc afterLabelPat htmlFooter.data = 0 :=
  ⟨by decide, by decide⟩

theorem countOcc_itemBlock (pat : List Char)
    (hpat : pat = beforeLabelPat ∨ pat = afterLabelPat)
    (label x y : String) (hx : '<' ∉ x.data) (hy : '<' ∉ y.data)
    (hpre : (blockPre label).data.getLast? = some ',') :
    countOcc pat (itemBlock label x y).data
      = countOcc pat (blockPre label).data
        + (countOcc pat blockMid.data + countOcc pat blockPost.data) := by
  have hne : pat ≠ [] := by rcases hpat with rfl | rfl <;> decide
  have hhead : pat.head? = some '<' := by rcases hpat with rfl | rfl <;> decide
  have hcomma : ',' ∉ pat := by rcases hpat with rfl | rfl <;> decide
  have hxh : ∀ hc, pat.head? = some hc → hc ∉ x.data := by
    intro hc hhc
    rw [hhead] at hhc
    injection hhc with h2
    subst h2
    exact hx
  have hyh : ∀ hc, pat.head? = some hc → hc ∉ y.data := by
    intro hc hhc
    rw [hhead] at hhc
    injection hhc with h2
    subst h2
    exact hy
  have hlastPre : ∀ c, (blockPre label).data.getLast? = some c → c ∉ pat := by
    intro c hcq
    rw [hpre] at hcq
    injection hcq with h2
    subst h2
    exact hcomma
  have hlastMid : ∀ c, blockMid.data.getLast? = some c → c ∉ pat := by
    intro c hcq
    rw [blockMid_facts.2.2] at hcq
    injection hcq with h2
    subst h2
    exact hcomma
  unfold itemBlock
  simp only [String.data_append, List.append_assoc]
  rw [countOcc_append pat (blockPre label).data
    (x.data ++ (blockMid.data ++ (y.data ++ blockPost.data))) hlastPre]
  rw [countOcc_skip2 pat x.data (blockMid.data ++ (y.data ++ blockPost.data)) hxh hne]
  rw [countOcc_append pat blockMid.data (y.data ++ blockPost.data) hlastMid]
  rw [countOcc_skip2 pat y.data blockPost.data hyh hne]

theorem itemBlock_count_both (t : String) (ht : t ∈ template_images)
    (x y : String) (hx : '<' ∉ x.data) (hy : '<' ∉ y.data) :
    countOcc beforeLabelPat (itemBlock (labelOf t) x y).data = 1
    ∧ countOcc afterLabelPat (itemBlock (labelOf t) x y).data = 1 := by
  have hpre := blockPre_facts t ht
  constructor
  · rw [countOcc_itemBlock beforeLabelPat (Or.inl rfl) (labelOf t) x y hx hy hpre.2.2]
    rw [hpre.1, blockMid_facts.1, blockPost_facts.1]
  · rw [countOcc_itemBlock afterLabelPat (Or.inr rfl) (labelOf t) x y hx hy hpre.2.2]
    rw [hpre.2.1, blockMid_facts.2.1, blockPost_facts.2.1]

theorem itemBlock_getLast (label x y : String) :
    (itemBlock label x y).data.getLast? = some '\n' := by
  unfold itemBlock
  simp only [String.data_append, List.append_assoc, List.getLast?_append]
  rw [blockPost_facts.2.2]
  simp

theorem htmlBody_getLast (fileAt : String → Option ImgFile)
    (input_folder output_folder : String) :
    ∀ ts : List String,
      (htmlBody fileAt input_folder output_folder ts).data.getLast? = none
      ∨ (htmlBody fileAt input_folder output_folder ts).data.getLast? = some '\n' := by
  intro ts
  induction ts with
  | nil => exact Or.inl rfl
  | cons t rest ih =>
    simp only [htmlBody]
    cases hb : fileAt (joinPath input_folder t) with
    | none => exact ih
    | some bi =>
      cases ha : fileAt (joinPath output_folder (outputName t)) with
      | none => exact ih
      | some ai =>
        right
        rw [String.data_append, List.getLast?_append]
        rcases ih with h | h <;> rw [h]
        · simp [itemBlock_getLast]
        · simp

theorem htmlBody_count (fileAt : String → Option ImgFile)
    (input_folder output_folder : String) :
    ∀ ts : List String, ts ⊆ template_images →
      countOcc beforeLabelPat (htmlBody fileAt input_folder output_folder ts).data
        = (includedPairs fileAt input_folder output_folder ts).length
      ∧ countOcc afterLabelPat (htmlBody fileAt input_folder output_folder ts).data
        = (includedPairs fileAt input_folder output_folder ts).length := by
  intro ts
  induction ts with
  | nil => intro _; exact ⟨rfl, rfl⟩
  | cons t rest ih =>
    intro hsub
    have ht : t ∈ template_images := hsub (List.mem_cons_self t rest)
    have hrest := ih (fun z hz => hsub (List.mem_cons_of_mem t hz))
    simp only [htmlBody, includedPairs]
    cases hb : fileAt (joinPath input_folder t) with
    | none => exact hrest
    | some bi =>
      cases ha : fileAt (joinPath output_folder (outputName t)) with
      | none => exact hrest
      | some ai =>
        have hx : '<' ∉ (img_to_base64 bi).data := b64_no_lt bi.bytes
        have hy : '<' ∉ (img_to_base64 ai).data := b64_no_lt ai.bytes
        have hcnt := itemBlock_count_both t ht (img_to_base64 bi) (img_to_base64 ai) hx hy
        have hlastIB : ∀ pat, pat = beforeLabelPat ∨ pat = afterLabelPat →
            ∀ c, (itemBlock (labelOf t) (img_to_base64 bi)
                (img_to_base64 ai)).data.getLast? = some c → c ∉ pat := by
          intro pat hpat c hcq
          rw [itemBlock_getLast] at hcq
          injection hcq with h2
          subst h2
          rcases hpat with rfl | rfl <;> decide
        constructor
        · rw [String.data_append,
            countOcc_append beforeLabelPat _ _ (hlastIB beforeLabelPat (Or.inl rfl)),
            hcnt.1, hrest.1]
          simp [Nat.add_comm]
        · rw [String.data_append,
            countOcc_append afterLabelPat _ _ (hlastIB afterLabelPat (Or.inr rfl)),
            hcnt.2, hrest.2]
          simp [Nat.add_comm]

theorem foldr_srcs_mem (L : List (String × ImgFile × ImgFile)) (src : String)
    (h : src ∈ L.foldr (fun p acc => ("data:image/png;base64," ++ img_to_base64 p.2.1)
        :: ("data:image/png;base64," ++ img_to_base64 p.2.2) :: acc) []) :
    ∃ p ∈ L, src = "data:image/png;base64," ++ img_to_base64 p.2.1
      ∨ src = "data:image/png;base64," ++ img_to_base64 p.2.2 := by
  induction L with
  | nil => simp at h
  | cons q L ih =>
    simp only [List.foldr_cons, List.mem_cons] at h
    rcases h with rfl | rfl | hm
    · exact ⟨q, List.mem_cons_self q L, Or.inl rfl⟩
    · exact ⟨q, List.mem_cons_self q L, Or.inr rfl⟩
    · rcases ih hm with ⟨p, hp, hor⟩
      exact ⟨p, List.mem_cons_of_mem _ hp, hor⟩

/-- C7: for each of the five pairs whose two files exist, the generated
document contains exactly one BEFORE-labeled and one AFTER-labeled image
block (the label-div counts equal the number of included pairs, one per
pair), and every image the generator emits is an inline base64 data URI
whose payload is nonempty whenever the file has bytes. -/
theorem c7_html_blocks (fs : Fs) (input_folder output_folder html_output : String)
    (h : ∀ pr ∈ includedPairs fs.fileAt input_folder output_folder template_images,
        pr.2.1.bytes ≠ [] ∧ pr.2.2.bytes ≠ []) :
    countOcc beforeLabelPat
        (create_html_comparison fs input_folder output_folder html_output).content.data
      = (includedPairs fs.fileAt input_folder output_folder template_images).length
    ∧ countOcc afterLabelPat
        (create_html_comparison fs input_folder output_folder html_output).content.data
      = (includedPairs fs.fileAt input_folder output_folder template_images).length
    ∧ ∀ src ∈ imgSrcs fs input_folder output_folder,
        ∃ payload : String, src = "data:image/png;base64," ++ payload ∧ payload ≠ "" := by
  have hbody := htmlBody_count fs.fileAt input_folder output_folder template_images
    (fun z hz => hz)
  have hbodyLast : ∀ pat, pat = beforeLabelPat ∨ pat = afterLabelPat →
      ∀ c, (htmlBody fs.fileAt input_folder output_folder template_images).data.getLast?
        = some c → c ∉ pat := by
    intro pat hpat c hcq
    rcases htmlBody_getLast fs.fileAt input_folder output_folder template_images with hn | hn <;>
      rw [hn] at hcq
    · exact absurd hcq (by simp)
    · injection hcq with h2
      subst h2
      rcases hpat with rfl | rfl <;> decide
  have hheadLast : ∀ pat, pat = beforeLabelPat ∨ pat = afterLabelPat →
      ∀ c, htmlHeader.data.getLast? = some c → c ∉ pat := by
    intro pat hpat c hcq
    rw [htmlHeader_facts.2.2] at hcq
    injection hcq with h2
    subst h2
    rcases hpat with rfl | rfl <;> decide
  refine ⟨?_, ?_, ?_⟩
  · show countOcc beforeLabelPat
        (htmlHeader ++ htmlBody fs.fileAt input_folder output_folder template_images
          ++ htmlFooter).data = _
    rw [String.data_append, String.data_append, List.append_assoc]
    rw [countOcc_append beforeLabelPat htmlHeader.data _
      (hheadLast beforeLabelPat (Or.inl rfl))]
    rw [countOcc_append beforeLabelPat
      (htmlBody fs.fileAt input_folder output_folder template_images).data htmlFooter.data
      (hbodyLast beforeLabelPat (Or.inl rfl))]
    rw [htmlHeader_facts.1, htmlFooter_facts.1, hbody.1]
    omega
  · show countOcc afterLabelPat
        (htmlHeader ++ htmlBody fs.fileAt input_folder output_folder template_images
          ++ htmlFooter).data = _
    rw [String.data_append, String.data_append, List.append_assoc]
    rw [countOcc_append afterLabelPat htmlHeader.data _
      (hheadLast afterLabelPat (Or.inr rfl))]
    rw [countOcc_append afterLabelPat
      (htmlBody fs.fileAt input_folder output_folder template_images).data htmlFooter.data
      (hbodyLast afterLabelPat (Or.inr rfl))]
    rw [htmlHeader_facts.2.1, htmlFooter_facts.2, hbody.2]
    omega
  · intro src hsrc
    simp only [imgSrcs] at hsrc
    rcases foldr_srcs_mem _ src hsrc with ⟨p, hp, hor⟩
    rcases hor with rfl | rfl
    · exact ⟨img_to_base64 p.2.1, rfl, b64String_ne_empty p.2.1.bytes (h p hp).1⟩
    · exact ⟨img_to_base64 p.2.2, rfl, b64String_ne_empty p.2.2.bytes (h p hp).2⟩

/-- C7 witness: with the border collie pair present and nonempty, the
document contains exactly one BEFORE and one AFTER label block and a
nonempty data-URI payload per image. -/
theorem c7_html_blocks_witness :
    (∀ pr ∈ includedPairs cfsOne.fileAt "input" "output" template_images,
        pr.2.1.bytes ≠ [] ∧ pr.2.2.bytes ≠ [])
    ∧ (countOcc beforeLabelPat
          (create_html_comparison cfsOne "input" "output" "comparison.html").content.data
        = (includedPairs cfsOne.fileAt "input" "output" template_images).length
      ∧ countOcc afterLabelPat
          (create_html_comparison cfsOne "input" "output" "comparison.html").content.data
        = (includedPairs cfsOne.fileAt "input" "output" template_images).length
      ∧ ∀ src ∈ imgSrcs cfsOne "input" "output",
          ∃ payload : String,
            src = "data:image/png;base64," ++ payload ∧ payload ≠ "") :=
  ⟨by decide, c7_html_blocks cfsOne "input" "output" "comparison.html" (by decide)⟩

/-- C5 counterexample: the claim states the canvas width is
2×300 + 3×20 = 680 pixels, but the code's `grid_width` evaluates to 660
(2×300 + 3×20 = 660 ≠ 680). -/
theorem c5_counterexample :
    (create_comparison_grid cfsNone "input" "output" "comparison_grid.png").width = 660
    ∧ (660 : Nat) ≠ 680 :=
  ⟨rfl, by decide⟩

/-- C5 amended: for every run of the grid generator the canvas is exactly
`img_width * 2 + padding * 3` = 660 pixels wide and
`(img_height + label_height + padding) * 5 + title_height + padding` =
1880 pixels tall, computed from the fixed layout constants, and the canvas
is saved (as the PNG-serialized bytes of the drawn content) to the given
destination path. -/
theorem c5_amended (fs : Fs) (input_folder output_folder comparison_output : String) :
    (create_comparison_grid fs input_folder output_folder comparison_output).width
      = img_width * 2 + padding * 3
    ∧ (create_comparison_grid fs input_folder output_folder comparison_output).width = 660
    ∧ (create_comparison_grid fs input_folder output_folder comparison_output).height
      = (img_height + label_height + padding) * 5 + title_height + padding
    ∧ (create_comparison_grid fs input_folder output_folder comparison_output).height = 1880
    ∧ (create_comparison_grid fs input_folder output_folder comparison_output).savedPath
      = comparison_output
    ∧ (create_comparison_grid fs input_folder output_folder comparison_output).savedBytes
      = encodeGrid 660 1880
          (create_comparison_grid fs input_folder output_folder comparison_output).rows :=
  ⟨rfl, rfl, rfl, rfl, rfl, rfl⟩

/-- C6: a pair with a missing input or output file yields no row; the grid
generator prints one warning per missing pair (and rows = number of
present pairs, so 3 present pairs give exactly 3 rows), while the HTML
generator includes exactly the present pairs and prints no warning at
all. -/
theorem c6_missing_pairs (fs : Fs)
    (input_folder output_folder comparison_output html_output : String) :
    (create_comparison_grid fs input_folder output_folder comparison_output).rows.length
      = template_images.countP (present fs.fileAt input_folder output_folder)
    ∧ (create_comparison_grid fs input_folder output_folder comparison_output).messages.countP
        isWarning
      = template_images.countP (fun t => !present fs.fileAt input_folder output_folder t)
    ∧ (template_images.countP (present fs.fileAt input_folder output_folder) = 3 →
       (create_comparison_grid fs input_folder output_folder comparison_output).rows.length = 3)
    ∧ (includedPairs fs.fileAt input_folder output_folder template_images).length
      = template_images.countP (present fs.fileAt input_folder output_folder)
    ∧ (create_html_comparison fs input_folder output_folder html_output).messages.countP
        isWarning = 0 := by
  have hrows :
      (create_comparison_grid fs input_folder output_folder comparison_output).rows.length
        = template_images.countP (present fs.fileAt input_folder output_folder) := by
    simp only [create_comparison_grid]
    exact gridLoop_length fs.fileAt input_folder output_folder template_images _
  refine ⟨hrows, ?_, fun h3 => by rw [hrows, h3], includedPairs_length _ _ _ _, ?_⟩
  · simp only [create_comparison_grid, List.countP_append]
    rw [gridLoop_warning_count fs.fileAt input_folder output_folder template_images _]
    simp [List.countP_cons, isWarning_grid_saved]
  · simp only [create_html_comparison]
    simp [List.countP_cons, isWarning_html_saved]

/-- C6 witness: with exactly 3 of the 5 pairs present the grid contains
exactly 3 rows. -/
theorem c6_missing_pairs_witness :
    template_images.countP (present cfsThree.fileAt "input" "output") = 3
    ∧ (create_comparison_grid cfsThree "input" "output" "comparison_grid.png").rows.length
      = 3 :=
  ⟨by decide,
    (c6_missing_pairs cfsThree "input" "output" "comparison_grid.png" "comparison.html").2.2.1
      (by decide)⟩

/-- C8: the two generators are deterministic functions of the folder
contents alone — two runs over byte-identical files produce identical
outputs, whatever the ambient clock says. -/
theorem c8_deterministic (fs1 fs2 : Fs)
    (input_folder output_folder comparison_output html_output : String)
    (h : fs1.fileAt = fs2.fileAt) :
    create_comparison_grid fs1 input_folder output_folder comparison_output
      = create_comparison_grid fs2 input_folder output_folder comparison_output
    ∧ create_html_comparison fs1 input_folder output_folder html_output
      = create_html_comparison fs2 input_folder output_folder html_output := by
  constructor <;> simp only [create_comparison_grid, create_html_comparison, h]

/-- C8 witness: two states with the same files but different clock times
produce identical grid and HTML outputs. -/
theorem c8_deterministic_witness :
    cfsOne.fileAt = cfsOneLater.fileAt
    ∧ cfsOne.time ≠ cfsOneLater.time
    ∧ (create_comparison_grid cfsOne "input" "output" "comparison_grid.png"
        = create_comparison_grid cfsOneLater "input" "output" "comparison_grid.png"
      ∧ create_html_comparison cfsOne "input" "output" "comparison.html"
        = create_html_comparison cfsOneLater "input" "output" "comparison.html") :=
  ⟨rfl, by decide,
    c8_deterministic cfsOne cfsOneLater "input" "output" "comparison_grid.png"
      "comparison.html" rfl⟩

/-- C10 counterexample: with 2 of the 5 pairs present the canvas width is
660, not the 680 the claim states as the fixed five-row canvas size. -/
theorem c10_counterexample :
    (create_comparison_grid cfsTwo "input" "output" "comparison_grid.png").rows.length = 2
    ∧ (create_comparison_grid cfsTwo "input" "output" "comparison_grid.png").width = 660
    ∧ (660 : Nat) ≠ 680 :=
  ⟨by decide, rfl, by decide⟩

/-- C10 amended: skipping a missing pair does not advance the row cursor —
the k-th emitted row always starts at `title_height + label_height +
(img_height + label_height + padding) * k`, whichever pairs are present —
and the canvas stays at the full five-row size 660×1880. -/
theorem c10_amended (fs : Fs) (input_folder output_folder comparison_output : String)
    (k : Nat) (row : Row)
    (hk : (create_comparison_grid fs input_folder output_folder comparison_output).rows[k]?
        = some row) :
    row.y = title_height + label_height + (img_height + label_height + padding) * k
    ∧ (create_comparison_grid fs input_folder output_folder comparison_output).width = 660
    ∧ (create_comparison_grid fs input_folder output_folder comparison_output).height
      = 1880 := by
  refine ⟨?_, rfl, rfl⟩
  have hk' : (gridLoop fs.fileAt input_folder output_folder template_images
      (title_height + label_height)).1[k]? = some row := hk
  exact gridLoop_y fs.fileAt input_folder output_folder template_images
    (title_height + label_height) k row hk'

/-- C10 witness: with the first and last pairs present, the second emitted
row sits directly under the first at y = 100 + 360. -/
theorem c10_amended_witness :
    (create_comparison_grid cfsTwo "input" "output" "comparison_grid.png").rows[1]?
      = some rowW
    ∧ (rowW.y = title_height + label_height + (img_height + label_height + padding) * 1
      ∧ (create_comparison_grid cfsTwo "input" "output" "comparison_grid.png").width = 660
      ∧ (create_comparison_grid cfsTwo "input" "output" "comparison_grid.png").height
        = 1880) :=
  ⟨by decide,
    c10_amended cfsTwo "input" "output" "comparison_grid.png" 1 rowW (by decide)⟩

end CMP

end SpriteCleaner
